import Mathlib

/-!
Verification of the tag-selection / prompt-composition core of the
scene-composer node (`src/node.py`).

The embedding translates `Node.run_node`, `Node.select_tags`,
`Node.parse_tag_distribution` and `Node.stringify_tags` into pure Lean
functions.  Configuration values (parsed TOML) are modelled by the
inductive type `Config`; Python dictionaries are association lists that
preserve insertion order; numbers are rationals; fallible Python code
(exceptions such as `ValueError`, `KeyError`, `TypeError`,
`UnboundLocalError`) is modelled in the `Except String` monad.

The numpy generator `np.random.default_rng(seed)` is a deterministic
function of its seed.  It is modelled by a `Gen` structure providing the
three kinds of draws the source makes (`rng.integers`, `rng.random`,
`rng.choice`), each a pure function of the seed and of the position of
the draw in the stream, with the interval constraint `0 ≤ rng.random() < 1`
carried as proof fields.  Every theorem quantifying over generators holds
for each deterministic generator; witnesses instantiate concrete ones.
-/

namespace SceneComposer

/-- A parsed TOML configuration value: an atomic string, a number, an
ordered sequence, or an insertion-ordered table. -/
inductive Config where
  | str : String → Config
  | num : ℚ → Config
  | list : List Config → Config
  | dict : List (String × Config) → Config

/-- Python `d[k]` read / `k in d`: first binding of the key in an
insertion-ordered dictionary. -/
def dictGet : List (String × Config) → String → Option Config
  | [], _ => none
  | (k1, v) :: rest, k => if k1 = k then some v else dictGet rest k

/-- Python `d[k] = v`: update the existing binding in place, else append
the new binding at the end (insertion order). -/
def dictSet : List (String × Config) → String → Config → List (String × Config)
  | [], k, v => [(k, v)]
  | (k1, v1) :: rest, k, v =>
    if k1 = k then (k, v) :: rest else (k1, v1) :: dictSet rest k v

/-! ### Python string primitives

The source uses `str.split`, `str.join` and `str.replace`.  They are
modelled directly on `List Char` so that every proof can compute. -/

/-- Python `s.split(c)` for a one-character separator: always returns at
least one piece; `"".split(c) = [""]`. -/
def splitOnChar (c : Char) : List Char → List (List Char)
  | [] => [[]]
  | x :: rest =>
    if x = c then [] :: splitOnChar c rest
    else
      match splitOnChar c rest with
      | [] => [[x]]
      | piece :: pieces => (x :: piece) :: pieces

/-- Python `s.split(c)` on `String`. -/
def pySplit (s : String) (c : Char) : List String :=
  (splitOnChar c s.toList).map List.asString

/-- Python `s.split(", ")`, the two-character separator used by the
serializer round-trip: leftmost-first, non-overlapping. -/
def splitCommaSpace : List Char → List (List Char)
  | ',' :: ' ' :: rest => [] :: splitCommaSpace rest
  | x :: rest =>
    match splitCommaSpace rest with
    | [] => [[x]]
    | piece :: pieces => (x :: piece) :: pieces
  | [] => [[]]

/-- Python `s.split(", ")` on `String`. -/
def splitTags (s : String) : List String :=
  (splitCommaSpace s.toList).map List.asString

/-- Python `", ".join(tags)` (`src/node.py` line 163); the tags are
already strings, so `map(str, ...)` is the identity. -/
def joinCommaSpace : List String → List Char
  | [] => []
  | [x] => x.toList
  | x :: rest => x.toList ++ ',' :: ' ' :: joinCommaSpace rest

/-- Python `s.replace(", ,", ",")` (`src/node.py` line 164): scan left to
right, replace each non-overlapping occurrence and continue after it. -/
def collapseCommas : List Char → List Char
  | ',' :: ' ' :: ',' :: rest => ',' :: collapseCommas rest
  | x :: rest => x :: collapseCommas rest
  | [] => []

/-- `Node.stringify_tags` (`src/node.py` lines 160-165): join with
`", "`, then collapse `", ,"` artifacts. -/
def stringify_tags (tags : List String) : String :=
  (collapseCommas (joinCommaSpace tags)).asString

/-! ### Weight parsing -/

/-- Decimal digit value. -/
def digitVal (c : Char) : Option Nat :=
  if c.isDigit then some (c.toNat - 48) else none

/-- Value of a digit run (most significant first); `none` on a non-digit. -/
def digitsVal : List Char → Option Nat
  | [] => some 0
  | c :: rest => do
    let d ← digitVal c
    let r ← digitsVal rest
    pure (d * 10 ^ rest.length + r)

/-- Models Python's `float(s)` on the decimal fragment the configuration
files use (`"1"`, `"1.5"`, `"-0.5"`, `".5"`, `"5."`): optional sign,
digits, optional single point.  Exotic float syntax (exponents,
`inf`/`nan`, surrounding whitespace) is outside the configurations this
development evaluates and is mapped to `none`. -/
def parsePyFloat (s : String) : Option ℚ :=
  let cs := s.toList
  let signed : ℚ × List Char :=
    match cs with
    | '-' :: rest => (-1, rest)
    | '+' :: rest => (1, rest)
    | _ => (1, cs)
  match splitOnChar '.' signed.2 with
  | [intPart] => do
    let _ ← intPart.head?
    let n ← digitsVal intPart
    pure (signed.1 * n)
  | [intPart, fracPart] => do
    let _ ← (intPart ++ fracPart).head?
    let n ← digitsVal intPart
    let f ← digitsVal fracPart
    pure (signed.1 * ((n : ℚ) + (f : ℚ) / (10 : ℚ) ^ fracPart.length))
  | _ => none

/-- The loop body of `Node.parse_tag_distribution` (`src/node.py` lines
128-137): for each entry, if it contains a colon, `tag.split(':')` must
unpack into exactly two parts (a second colon raises `ValueError: too
many values to unpack`), and the weight part must convert to a float;
entries without a colon keep their full text and weight 1. -/
def parseEntries : List String → Except String (List (String × ℚ))
  | [] => .ok []
  | t :: rest =>
    match pySplit t ':' with
    | [_] =>
      match parseEntries rest with
      | .ok pairs => .ok ((t, 1) :: pairs)
      | .error e => .error e
    | [a, b] =>
      match parsePyFloat b with
      | some w =>
        match parseEntries rest with
        | .ok pairs => .ok ((a, w) :: pairs)
        | .error e => .error e
      | none => .error "ValueError: could not convert string to float"
    | _ => .error "ValueError: too many values to unpack"

/-- `Node.parse_tag_distribution` (`src/node.py` lines 123-139): collect
names and raw weights, then divide every weight by the raw total
(`np.array(weights) / sum(weights)`). -/
def parse_tag_distribution (tags : List String) :
    Except String (List String × List ℚ) :=
  match parseEntries tags with
  | .error e => .error e
  | .ok pairs =>
    let total := (pairs.map (·.2)).sum
    .ok (pairs.map (·.1), pairs.map (fun pr => pr.2 / total))

/-! ### The seeded generator

`np.random.default_rng(seed)` is a deterministic stream of draws fixed
by the seed.  `Gen` models one such stream: each field gives the raw
value of the k-th draw of the corresponding kind (`rng.integers`,
`rng.random`, `rng.choice`'s successive index picks).  `rng.random()`
always lies in `[0, 1)`; this is part of the generator's contract and is
carried as proof fields. -/
structure Gen where
  intDraw : Nat → Nat → Nat
  rand : Nat → Nat → ℚ
  pick : Nat → Nat → Nat
  rand_nonneg : ∀ s k, 0 ≤ rand s k
  rand_lt_one : ∀ s k, rand s k < 1

/-- A concrete generator whose draws are all zero. -/
def genZero : Gen :=
  ⟨fun _ _ => 0, fun _ _ => 0, fun _ _ => 0,
   fun _ _ => le_refl 0, fun _ _ => one_pos⟩

/-- A concrete generator whose integer draws are 1 and whose uniform
draws are 1/2. -/
def genOne : Gen :=
  ⟨fun _ _ => 1, fun _ _ => (1 : ℚ)/2, fun _ _ => 0,
   fun _ _ => by norm_num, fun _ _ => by norm_num⟩

/-- `rng.integers(lo, hi)` (`src/node.py` line 106): one integer uniform
on the half-open interval `[lo, hi)`; numpy raises `ValueError` when
`lo >= hi`. -/
def numpyIntegers (g : Gen) (seed pos : Nat) (lo hi : Int) : Except String Int :=
  if lo < hi then .ok (lo + (g.intDraw seed pos : Int) % (hi - lo))
  else .error "ValueError: low >= high"

/-- Sampling without replacement: draw `n` successive indices into the
shrinking pool, removing each drawn element. -/
def drawDistinct (g : Gen) (seed : Nat) : Nat → Nat → List String → List String
  | _, 0, _ => []
  | _, _ + 1, [] => []
  | pos, m + 1, x :: rest =>
    let pool := x :: rest
    let i := g.pick seed pos % pool.length
    pool.getD i "" :: drawDistinct g seed (pos + 1) m (pool.eraseIdx i)

/-- `rng.choice(tag_names, size=n, replace=False, p=weights)`
(`src/node.py` lines 113-118): numpy validates the probability vector
(length, non-negativity, unit sum) and rejects `size` larger than the
population when `replace=False`; otherwise it returns `size` distinct
elements. -/
def numpyChoice (g : Gen) (seed pos : Nat) (names : List String) (n : Nat)
    (ws : List ℚ) : Except String (List String) :=
  if ws.length ≠ names.length then .error "ValueError: a and p must have same size"
  else if ws.any (fun w => w < 0) then .error "ValueError: probabilities are not non-negative"
  else if ws.sum ≠ 1 then .error "ValueError: probabilities do not sum to 1"
  else if names.length < n then
    .error "ValueError: Cannot take a larger sample than population when replace is False"
  else .ok (drawDistinct g seed pos n names)

/-! ### Dynamic shape helpers used by `select_tags` -/

/-- Python `len(x)` (`src/node.py` line 105): characters of a string,
elements of a list, keys of a dict; `TypeError` on a number. -/
def clen : Config → Except String Nat
  | .str s => .ok s.toList.length
  | .list xs => .ok xs.length
  | .dict kvs => .ok kvs.length
  | .num _ => .error "TypeError: object of type number has no len"

/-- A configuration value used where Python needs a number (comparison
with `rng.random()`, the `min` at line 105). -/
def asNum : Config → Except String ℚ
  | .num q => .ok q
  | _ => .error "TypeError: not a number"

/-- Python `int(x)` truncation toward zero of a rational. -/
def ratTrunc (q : ℚ) : Int :=
  q.num / (q.den : Int)

/-- Python `int(x)` (`src/node.py` line 106): numbers truncate toward
zero; strings must spell an integer. -/
def asInt : Config → Except String Int
  | .num q => .ok (ratTrunc q)
  | .str s =>
    match s.toInt? with
    | some i => .ok i
    | none => .error "ValueError: invalid literal for int"
  | _ => .error "TypeError: int() argument"

/-- The `size` argument of `rng.choice`: must be a non-negative integer
(numpy rejects fractional and negative sizes). -/
def asSize : Config → Except String Nat
  | .num q =>
    if q.den = 1 then
      if 0 ≤ q.num then .ok q.num.toNat
      else .error "ValueError: negative dimensions are not allowed"
    else .error "TypeError: size must be an integer"
  | _ => .error "TypeError: size must be an integer"

/-- `needle in haystack` over `List Char`. -/
def beginsWith : List Char → List Char → Bool
  | [], _ => true
  | _ :: _, [] => false
  | p :: ps, c :: cs => p = c && beginsWith ps cs

/-- Substring test for Python `sub in s` on strings. -/
def containsSub (pat : List Char) : List Char → Bool
  | [] => beginsWith pat []
  | c :: rest => beginsWith pat (c :: rest) || containsSub pat rest

/-- Test whether a list element is a given atomic string (Python `==`
between a string and an arbitrary value is `False` on other types). -/
def isStrVal (k : String) : Config → Bool
  | .str s => s = k
  | _ => false

/-- Python `"tags" in tags` (`src/node.py` line 99) on whatever value
`tags` holds after the `list` indirection: key test on a dict, element
test on a list, substring test on a string, `TypeError` on a number. -/
def configContains (c : Config) (k : String) : Except String Bool :=
  match c with
  | .dict kvs => .ok (kvs.any (fun kv => kv.1 = k))
  | .list xs => .ok (xs.any (isStrVal k))
  | .str s => .ok (containsSub k.toList s.toList)
  | .num _ => .error "TypeError: argument of type number is not iterable"

/-- Python iteration `for tag in tags` as used by
`parse_tag_distribution` (`src/node.py` line 130): a string iterates its
characters as one-character strings, a list its elements (which the loop
body then treats as strings: a numeric element fails on `':' in tag`; a
nested list or dict element is outside the configurations this
development evaluates and is mapped to an error), a dict its keys; a
number is not iterable. -/
def iterTags : Config → Except String (List String)
  | .str s => .ok (s.toList.map (fun c => String.singleton c))
  | .dict kvs => .ok (kvs.map (·.1))
  | .num _ => .error "TypeError: number is not iterable"
  | .list xs => iterStrs xs
where
  iterStrs : List Config → Except String (List String)
    | [] => .ok []
    | .str t :: rest =>
      match iterStrs rest with
      | .ok ts => .ok (t :: ts)
      | .error e => .error e
    | .num _ :: _ => .error "TypeError: argument of type number is not iterable"
    | _ :: _ => .error "unmodelled: non-atomic tag entry"

/-- The effective seed of a `select_tags` call (`src/node.py` line 82):
Python's `seed or self.seed`, where both `None` and `0` are falsy. -/
def effSeed (selfSeed : Nat) : Option Nat → Nat
  | none => selfSeed
  | some s => if s = 0 then selfSeed else s

/-- Lines 111-121 of `src/node.py`: parse the working tag collection
into names and normalized weights, draw `n` of them without replacement,
and join the winners into one string. -/
def sampleFrom (g : Gen) (seed pos : Nat) (tags : Config) (n : Config) :
    Except String String :=
  match iterTags tags with
  | .error e => .error e
  | .ok entries =>
    match parse_tag_distribution entries with
    | .error e => .error e
    | .ok (names, ws) =>
      match asSize n with
      | .error e => .error e
      | .ok size =>
        match numpyChoice g seed pos names size ws with
        | .error e => .error e
        | .ok sel => .ok (stringify_tags sel)

/-- Lines 99-121 of `src/node.py`, entered with the value the dict
branch is left with after the optional `list` indirection: extract the
`tags` field when present (`tags.get` fails on a non-dict), draw the
actual repeat count when `repeat` is a range (note `rng.integers` is
half-open and clamps only the upper bound, via `min(n[1], len(tags))`),
apply the probability gate `rng.random() > p`, then sample. -/
def selectRest (g : Gen) (seed : Nat) (tags1 : Config) (p n : Config) :
    Except String String :=
  match configContains tags1 "tags" with
  | .error e => .error e
  | .ok mem =>
    let tagsE : Except String Config :=
      if mem then
        match tags1 with
        | .dict kvs => .ok ((dictGet kvs "tags").getD (.list []))
        | _ => .error "AttributeError: no attribute get"
      else .ok tags1
    match tagsE with
    | .error e => .error e
    | .ok tags2 =>
      let drawE : Except String (Config × Nat) :=
        match n with
        | .list l =>
          match l[0]?, l[1]? with
          | some a, some b =>
            (match asInt a, asNum b, clen tags2 with
             | .ok lo, .ok bq, .ok len =>
               (match numpyIntegers g seed 0 lo (ratTrunc (min bq (len : ℚ))) with
                | .ok v => .ok (Config.num (v : ℚ), 1)
                | .error e => .error e)
             | .error e, _, _ => .error e
             | .ok _, .error e, _ => .error e
             | .ok _, .ok _, .error e => .error e)
          | _, _ => .error "IndexError: list index out of range"
        | _ => .ok (n, 0)
      match drawE with
      | .error e => .error e
      | .ok (n2, pos1) =>
        match asNum p with
        | .error e => .error e
        | .ok pq =>
          if g.rand seed pos1 > pq then .ok ""
          else sampleFrom g seed (pos1 + 1) tags2 n2

/-- Key lookup returns a structurally smaller value (for termination of
`select_tags`). -/
theorem sizeOf_dictGet {kvs : List (String × Config)} {k : String} {v : Config}
    (h : dictGet kvs k = some v) : sizeOf v < sizeOf (Config.dict kvs) := by
  induction kvs with
  | nil => simp [dictGet] at h
  | cons hd tl ih =>
    rw [dictGet] at h
    by_cases hk : hd.1 = k
    · obtain ⟨k1, v1⟩ := hd
      simp only at hk
      rw [if_pos hk] at h
      cases h
      simp only [Config.dict.sizeOf_spec, List.cons.sizeOf_spec, Prod.mk.sizeOf_spec]
      omega
    · obtain ⟨k1, v1⟩ := hd
      simp only at hk
      rw [if_neg hk] at h
      have := ih h
      simp only [Config.dict.sizeOf_spec, List.cons.sizeOf_spec] at *
      omega

/-- `Node.select_tags` (`src/node.py` lines 80-121).  `selfSeed` is the
node's stored `self.seed`; `seedArg` the optional explicit `seed`
argument.  A string returns verbatim.  A dict reads `probability` and
`repeat`, resolves the `list` indirection by a recursive call (which,
passing no seed, restarts a fresh generator from `self.seed`) and
indexes the dict with the returned string, then continues with
`selectRest`.  Any other value is sampled directly. -/
def select_tags (g : Gen) (selfSeed : Nat) (tags : Config) (p n : Config)
    (seedArg : Option Nat) : Except String String :=
  let seed := effSeed selfSeed seedArg
  match tags with
  | .str s => .ok s
  | .dict kvs =>
    let p1 := (dictGet kvs "probability").getD p
    let n1 := (dictGet kvs "repeat").getD n
    (match h : dictGet kvs "list" with
     | some lv =>
       (match select_tags g selfSeed lv p1 n1 none with
        | .error e => .error e
        | .ok sel =>
          match dictGet kvs sel with
          | some v => selectRest g seed v p1 n1
          | none => .error "KeyError")
     | none => selectRest g seed (Config.dict kvs) p1 n1)
  | .num q => sampleFrom g seed 0 (.num q) n
  | .list xs => sampleFrom g seed 0 (.list xs) n
termination_by sizeOf tags
decreasing_by
  simp only [Config.dict.sizeOf_spec] at *
  have := sizeOf_dictGet h
  simp only [Config.dict.sizeOf_spec] at this
  omega



/-- Unfolding: a plain string returns verbatim (line 85-86). -/
theorem select_tags_str (g : Gen) (ss : Nat) (s : String) (p n : Config)
    (sa : Option Nat) : select_tags g ss (.str s) p n sa = .ok s := by
  unfold select_tags
  rfl

/-- Unfolding: a list is sampled directly with a fresh position. -/
theorem select_tags_list (g : Gen) (ss : Nat) (xs : List Config) (p n : Config)
    (sa : Option Nat) :
    select_tags g ss (.list xs) p n sa =
      sampleFrom g (effSeed ss sa) 0 (.list xs) n := by
  unfold select_tags
  rfl

/-- Unfolding: a number reaches the tag-iteration step directly. -/
theorem select_tags_num (g : Gen) (ss : Nat) (q : ℚ) (p n : Config)
    (sa : Option Nat) :
    select_tags g ss (.num q) p n sa =
      sampleFrom g (effSeed ss sa) 0 (.num q) n := by
  unfold select_tags
  rfl

/-- Unfolding of the dict branch, with the `list`-indirection match in
non-dependent form. -/
theorem select_tags_dict (g : Gen) (ss : Nat) (kvs : List (String × Config))
    (p n : Config) (sa : Option Nat) :
    select_tags g ss (.dict kvs) p n sa =
      (match dictGet kvs "list" with
       | some lv =>
         (match select_tags g ss lv ((dictGet kvs "probability").getD p)
             ((dictGet kvs "repeat").getD n) none with
          | .error e => .error e
          | .ok sel =>
            match dictGet kvs sel with
            | some v => selectRest g (effSeed ss sa) v
                ((dictGet kvs "probability").getD p)
                ((dictGet kvs "repeat").getD n)
            | none => .error "KeyError")
       | none => selectRest g (effSeed ss sa) (.dict kvs)
           ((dictGet kvs "probability").getD p)
           ((dictGet kvs "repeat").getD n)) := by
  conv_lhs => unfold select_tags
  split
  next s hs => simp at hs
  next kvs1 hk =>
    injection hk with hk1
    subst hk1
    split
    next lv hl => rw [hl]
    next hl => rw [hl]
  next q hq => simp at hq
  next xs hx => simp at hx

/-- Unfolding of the dict branch when the dict has no `list` key. -/
theorem select_tags_dict_nolist (g : Gen) (ss : Nat)
    (kvs : List (String × Config)) (p n : Config) (sa : Option Nat)
    (h : dictGet kvs "list" = none) :
    select_tags g ss (.dict kvs) p n sa =
      selectRest g (effSeed ss sa) (.dict kvs)
        ((dictGet kvs "probability").getD p)
        ((dictGet kvs "repeat").getD n) := by
  rw [select_tags_dict, h]

/-! ### The node: `run_node` and the prompt pipeline

`src/node.py` lines 12-78.  The concrete sub-component classes
(`Component`, `Composition`, `Action`, ...) live in files that are not
part of the sources, so the composition step is taken from the spec
(sections 4.3 and 2): each component deterministically resolves a
fragment from the node's data and the propagated seed; `build_prompt`
rebuilds the component mapping before every prompt.  That step is the
`build_components` parameter below. -/

/-- The mutable state of a `Node`: `self.seed`, `self.data`,
`self.components` (each child reduced to the fragment its `__str__`
would produce) and `self.prompt`. -/
structure NodeState where
  seed : Nat
  data : List (String × Config)
  components : List (String × String)
  prompt : List String

/-- `Node.__init__` (`src/node.py` lines 12-19) on already-loaded data:
stores the seed and data; components and prompt start empty. -/
def mkNode (seed : Nat) (data : List (String × Config)) : NodeState :=
  ⟨seed, data, [], []⟩

/-- Dotted-path descent into nested dictionaries. -/
def nestedLookup : Config → List String → Except String Config
  | c, [] => .ok c
  | .dict kvs, k :: rest =>
    match dictGet kvs k with
    | some v => nestedLookup v rest
    | none => .error "LookupError: key not found"
  | _, _ :: _ => .error "LookupError: not a mapping"

/-- Modelled from the spec: `get_nested_dict_value` is imported from
`src/utils.py`, which is absent from the sources.  Per spec sections 4.3
and 6 it looks an override's target path up inside the node's own
configuration subtree, "supporting dotted/nested path lookup", and a
path that does not resolve is a lookup failure that propagates
(section 7). -/
def get_nested_dict_value (c : Config) (path : String) : Except String Config :=
  nestedLookup c (pySplit path '.')

/-- The override loop of `Node.run_node` (`src/node.py` lines 49-52).
The local variable `output` is assigned only when the value is not the
`"random"` sentinel, but `self.data[arg] = output` runs on every
iteration: a `"random"` entry therefore receives the previous
iteration's looked-up value, and raises `UnboundLocalError` when no
previous iteration assigned `output`. -/
def applyKwargs : List (String × Config) → Option Config →
    List (String × String) → Except String (List (String × Config))
  | d, _, [] => .ok d
  | d, out, (arg, value) :: rest =>
    if value = "random" then
      match out with
      | none => .error "UnboundLocalError: local variable output"
      | some o => applyKwargs (dictSet d arg o) (some o) rest
    else
      match get_nested_dict_value (.dict d) value with
      | .error e => .error e
      | .ok o => applyKwargs (dictSet d arg o) (some o) rest

/-- `Node.update_seed` (`src/node.py` lines 73-78): store the new seed
(the children's seeds are reassigned too; in this model the children are
rebuilt from the propagated seed by `build_components`, so only the
stored seed matters). -/
def update_seed (s : NodeState) (seed : Nat) : NodeState :=
  { s with seed := seed }

/-- `Node.build_prompt` (`src/node.py` lines 64-68): rebuild the
components from the current seed and data, then list their fragments in
insertion order. -/
def build_prompt (build_components : Nat → List (String × Config) → List (String × String))
    (s : NodeState) : NodeState :=
  let comps := build_components s.seed s.data
  { s with components := comps, prompt := comps.map (fun c => c.2) }

/-- `Node.get_prompt` (`src/node.py` lines 58-62). -/
def get_prompt (build_components : Nat → List (String × Config) → List (String × String))
    (s : NodeState) : String × NodeState :=
  let s1 := build_prompt build_components s
  (stringify_tags s1.prompt, s1)

/-- `Node.run_node` (`src/node.py` lines 42-56): apply the overrides to
`self.data` in place, store the new seed, rebuild and return the
prompt. -/
def run_node (build_components : Nat → List (String × Config) → List (String × String))
    (s : NodeState) (seed : Nat) (kwargs : List (String × String)) :
    Except String (String × NodeState) :=
  match applyKwargs s.data none kwargs with
  | .error e => .error e
  | .ok d =>
    let s1 := update_seed { s with data := d } seed
    let pr := get_prompt build_components s1
    .ok pr

/-! ### Concrete artifacts used by the `run_node` claims -/

/-- A component builder exposing the configured entry `data["a"]`: it
models a sub-component whose configured value is the plain tag stored
under `"a"` (which `select_tags` returns verbatim, line 85-86). -/
def bcShow : Nat → List (String × Config) → List (String × String) :=
  fun _ data => [("c", match dictGet data "a" with | some (.str s) => s | _ => "")]

/-- Initial data of the example node. -/
def nodeC1data : List (String × Config) := [("b", .str "1"), ("x", .str "2")]

/-- Overrides whose second lookup reads the key written by the first. -/
def kwConflict : List (String × String) := [("a", "b"), ("b", "x")]

/-- Data and overrides exhibiting the stale-`output` assignment. -/
def nodeC2data : List (String × Config) := [("p", .str "v"), ("b", .str "old")]

/-- An override list whose second entry carries the `"random"` sentinel. -/
def kwStale : List (String × String) := [("a", "p"), ("b", "random")]

/-- Everything `run_node` returns is a function of the node's data and
the call arguments alone: the stored seed, components and prompt are
overwritten or ignored. -/
theorem run_node_data_only (bc : Nat → List (String × Config) → List (String × String))
    (sd1 sd2 : Nat) (d : List (String × Config))
    (c1 c2 : List (String × String)) (p1 p2 : List String) (S : Nat)
    (O : List (String × String)) :
    run_node bc ⟨sd1, d, c1, p1⟩ S O = run_node bc ⟨sd2, d, c2, p2⟩ S O := by
  unfold run_node
  cases applyKwargs d none O <;> rfl

/-- C1 (amended): a `run_node` call is a deterministic function of the
node's data mapping, the seed argument and the overrides — two calls
from states with equal data (whatever their stored seed, components and
prompt) return byte-identical results.  The claim's statement about two
*successive* calls on one instance fails because the override loop
mutates the data in place (see the counterexample). -/
theorem run_node_output_determined_by_data
    (bc : Nat → List (String × Config) → List (String × String))
    (s1 s2 : NodeState) (S : Nat) (O : List (String × String))
    (hd : s1.data = s2.data) :
    run_node bc s1 S O = run_node bc s2 S O := by
  obtain ⟨a1, d1, c1, p1⟩ := s1
  obtain ⟨a2, d2, c2, p2⟩ := s2
  simp only at hd
  subst hd
  exact run_node_data_only bc a1 a2 d1 c1 c2 p1 p2 S O

/-- Witness for C1's amended theorem at concrete states. -/
theorem run_node_output_determined_by_data_witness :
    run_node bcShow ⟨0, nodeC1data, [], []⟩ 5 kwConflict
      = run_node bcShow ⟨9, nodeC1data, [("z", "w")], ["q"]⟩ 5 kwConflict :=
  run_node_output_determined_by_data bcShow ⟨0, nodeC1data, [], []⟩
    ⟨9, nodeC1data, [("z", "w")], ["q"]⟩ 5 kwConflict rfl

/-- C1 (counterexample): with seed 7 and the overrides
`kwConflict = [("a", "b"), ("b", "x")]`, the first call returns `"1"`
but the immediately repeated call with the identical seed and overrides
returns `"2"`: the first call rewrote `data["b"]`, and the second
call's lookup of path `"b"` reads the rewritten value.  Two runs with
identical seed and overrides are not byte-identical. -/
theorem run_node_repeat_call_differs :
    ((run_node bcShow (mkNode 0 nodeC1data) 7 kwConflict).map Prod.fst = .ok "1")
    ∧ (((run_node bcShow (mkNode 0 nodeC1data) 7 kwConflict).bind
        (fun r => run_node bcShow r.2 7 kwConflict)).map Prod.fst = .ok "2") :=
  ⟨rfl, rfl⟩

/-- C2 (code bug): the override loop's own comment says a `"random"`
value keeps the previous entry, but `self.data[arg] = output` runs
unconditionally, so the `"random"` key `"b"` receives the *previous
iteration's* looked-up value `"v"` instead of keeping `"old"`. -/
theorem run_node_random_sentinel_overwrites :
    (run_node bcShow (mkNode 0 nodeC2data) 3 kwStale).map
        (fun r => dictGet r.2.data "b") = .ok (some (.str "v"))
    ∧ dictGet nodeC2data "b" = some (.str "old") :=
  ⟨rfl, rfl⟩

/-- C3 (amended): the components and prompt really are rebuilt fresh —
no call result depends on them — but the data mapping is *not* rebuilt:
a call behaves like a first call on a freshly constructed node whose
initial data is the instance's current (possibly mutated) data. -/
theorem run_node_equals_fresh_node_on_current_data
    (bc : Nat → List (String × Config) → List (String × String))
    (s : NodeState) (S : Nat) (O : List (String × String)) :
    run_node bc s S O = run_node bc (mkNode 0 s.data) S O := by
  obtain ⟨a, d, c, p⟩ := s
  exact run_node_data_only bc a 0 d c [] p [] S O

/-- C3 (counterexample): after one `run_node` call, a second call on the
same instance returns `"2"`, while a first call on a freshly
constructed node with the same initial data, seed and overrides returns
`"1"` — the first call's data mutation leaks into the second call. -/
theorem run_node_second_call_differs_from_fresh :
    (((run_node bcShow (mkNode 0 nodeC1data) 7 kwConflict).bind
        (fun r => run_node bcShow r.2 7 kwConflict)).map Prod.fst = .ok "2")
    ∧ ((run_node bcShow (mkNode 0 nodeC1data) 7 kwConflict).map Prod.fst = .ok "1")
    ∧ ((.ok "2" : Except String String) ≠ .ok "1") :=
  ⟨rfl, rfl, by simp⟩

/-- C9 (code bug): the serializer's re-join normalization is not
idempotent.  For the four empty fragments, `", ".join` gives
`", , , "`; the single left-to-right `replace(", ,", ",")` pass yields
`", , "`, which still contains a `", ,"` artifact; splitting that output
on `", "` and stringifying again yields `", "` — a different string.
The spec requires the normalization pass to be idempotent. -/
theorem stringify_tags_rejoin_not_idempotent :
    stringify_tags (splitTags (stringify_tags ["", "", "", ""]))
      ≠ stringify_tags ["", "", "", ""]
    ∧ stringify_tags ["", "", "", ""] = ", , "
    ∧ stringify_tags (splitTags ", , ") = ", " := by
  refine ⟨?_, by decide, by decide⟩
  decide

/-- C10 (confirmed): `seed = seed or self.seed` (line 82) treats the
explicit argument `0` exactly like a missing argument, because `0` is
falsy in Python: for every node state and every input, passing
`seed=0` produces the same call as passing no seed, and the effective
seed is the stored `self.seed` in both cases. -/
theorem select_tags_seed_zero_is_default (g : Gen) (ss : Nat) (tags : Config)
    (p n : Config) :
    select_tags g ss tags p n (some 0) = select_tags g ss tags p n none
    ∧ effSeed ss (some 0) = ss ∧ effSeed ss none = ss := by
  refine ⟨?_, rfl, rfl⟩
  cases tags with
  | str s => rw [select_tags_str, select_tags_str]
  | num q =>
    rw [select_tags_num, select_tags_num]
    rfl
  | list xs =>
    rw [select_tags_list, select_tags_list]
    rfl
  | dict kvs =>
    rw [select_tags_dict, select_tags_dict]
    rfl

/-! ### C7: the weight parser -/

@[simp] theorem asString_data (l : List Char) : (List.asString l).data = l := rfl

@[simp] theorem char_two_toNat : Char.toNat '2' = 50 := rfl

/-- The raw (pre-normalization) weight of one entry, as the loop of
`parse_tag_distribution` computes it: the parsed float after a single
colon, and 1 otherwise. -/
def rawWeight (x : String) : ℚ :=
  match pySplit x ':' with
  | [_, b] => (parsePyFloat b).getD 1
  | _ => 1

/-- `parseEntries` on entries with at most one colon (and parseable
weights) collects first-piece names and raw weights. -/
theorem parseEntries_ok (xs : List String)
    (h : ∀ x ∈ xs, pySplit x ':' = [x] ∨
        ∃ a b q, pySplit x ':' = [a, b] ∧ parsePyFloat b = some q) :
    parseEntries xs = .ok (xs.map (fun x => ((pySplit x ':').headD x, rawWeight x))) := by
  induction xs with
  | nil => rfl
  | cons t rest ih =>
    have ht := h t (by simp)
    have hrest : ∀ x ∈ rest, pySplit x ':' = [x] ∨
        ∃ a b q, pySplit x ':' = [a, b] ∧ parsePyFloat b = some q :=
      fun x hx => h x (by simp [hx])
    rw [parseEntries]
    rcases ht with h1 | ⟨a, b, q, h2, h3⟩
    · rw [h1, ih hrest]
      simp [rawWeight, h1]
    · simp only [h2, h3]
      rw [ih hrest]
      simp [rawWeight, h2, h3]

/-- Dividing each summand divides the sum. -/
theorem list_sum_map_div {α : Type} (l : List α) (f : α → ℚ) (c : ℚ) :
    (l.map (fun x => f x / c)).sum = (l.map f).sum / c := by
  induction l with
  | nil => simp
  | cons x rest ih => simp [ih, add_div]

/-- C7 (amended): for entries with zero or one colon, the parser keeps
colon-free entries whole with weight 1 and splits one-colon entries at
that colon with the parsed numeric weight; the output weights are the
raw weights each divided by the raw total, so they sum to 1 *provided*
the raw total is nonzero.  (An entry with two or more colons makes the
call fail — the two-way unpacking raises — and an all-zero weight list
is returned unnormalized; see the counterexample.) -/
theorem parse_tag_distribution_single_colon_normalizes (xs : List String)
    (h : ∀ x ∈ xs, pySplit x ':' = [x] ∨
        ∃ a b q, pySplit x ':' = [a, b] ∧ parsePyFloat b = some q) :
    parse_tag_distribution xs
      = .ok (xs.map (fun x => (pySplit x ':').headD x),
             xs.map (fun x => rawWeight x / (xs.map rawWeight).sum))
    ∧ (xs.map (fun x => rawWeight x / (xs.map rawWeight).sum)).length = xs.length
    ∧ ((xs.map rawWeight).sum ≠ 0 →
        (xs.map (fun x => rawWeight x / (xs.map rawWeight).sum)).sum = 1) := by
  refine ⟨?_, by simp, ?_⟩
  · unfold parse_tag_distribution
    rw [parseEntries_ok xs h]
    simp [List.map_map, Function.comp_def]
  · intro hne
    rw [list_sum_map_div xs rawWeight]
    exact div_self hne

/-- C7 (counterexample): the claim fails on the code in two ways.  The
entry `"a:b:2"` is not split at its first colon — `tag.split(':')`
yields three pieces and the two-way unpacking raises, so not *every*
sequence of entries is mapped to a result.  And for `["a:0"]` the
returned weight vector is `[0]`, which does not sum to 1 (numpy's
`[0.]/0.0` division produces `nan`; in exact arithmetic the entry is
0), so the output is not always a probability distribution. -/
theorem parse_tag_distribution_multicolon_and_zero_sum :
    parse_tag_distribution ["a:b:2"] = .error "ValueError: too many values to unpack"
    ∧ parse_tag_distribution ["a:0"] = .ok (["a"], [0])
    ∧ ([(0 : ℚ)].sum ≠ 1) := by
  refine ⟨by rfl, ?_, by norm_num⟩
  norm_num +decide [parse_tag_distribution, parseEntries, pySplit, splitOnChar,
    parsePyFloat, digitsVal, digitVal]

/-- Witness for C7's amended theorem at `["a:2", "b"]`. -/
theorem parse_tag_distribution_single_colon_normalizes_witness :
    parse_tag_distribution ["a:2", "b"]
      = .ok ((["a:2", "b"]).map (fun x => (pySplit x ':').headD x),
             (["a:2", "b"]).map (fun x => rawWeight x / ((["a:2", "b"]).map rawWeight).sum))
    ∧ ((["a:2", "b"]).map (fun x => rawWeight x / ((["a:2", "b"]).map rawWeight).sum)).sum = 1 := by
  have hyp : ∀ x ∈ ["a:2", "b"], pySplit x ':' = [x] ∨
      ∃ a b q, pySplit x ':' = [a, b] ∧ parsePyFloat b = some q := by
    intro x hx
    simp only [List.mem_cons, List.not_mem_nil, or_false] at hx
    rcases hx with rfl | rfl
    · exact Or.inr ⟨"a", "2", 2, by decide,
        by norm_num +decide [parsePyFloat, splitOnChar, digitsVal, digitVal]⟩
    · exact Or.inl (by decide)
  have h := parse_tag_distribution_single_colon_normalizes ["a:2", "b"] hyp
  exact ⟨h.1, h.2.2 (by norm_num +decide [rawWeight, pySplit, splitOnChar,
    parsePyFloat, digitsVal, digitVal])⟩

/-! ### Shared sampling lemmas for the `select_tags` claims -/

/-- Iterating a list of atomic strings yields those strings. -/
theorem iterTags_strs (xs : List String) :
    iterTags (.list (xs.map .str)) = .ok xs := by
  induction xs with
  | nil => rfl
  | cons t rest ih =>
    show iterTags.iterStrs (Config.str t :: rest.map .str) = _
    rw [iterTags.iterStrs]
    have h : iterTags.iterStrs (rest.map .str) = .ok rest := ih
    rw [h]

/-- Sum of a constant map. -/
theorem sum_map_const_q {α : Type} (xs : List α) (c : ℚ) :
    (xs.map (fun _ => c)).sum = xs.length * c := by
  induction xs with
  | nil => simp
  | cons x rest ih =>
    simp [ih]
    ring

/-- On colon-free entries the parser returns the entries unchanged with
the uniform distribution. -/
theorem parse_colonFree (xs : List String)
    (h : ∀ x ∈ xs, pySplit x ':' = [x]) :
    parse_tag_distribution xs = .ok (xs, xs.map (fun _ => 1 / (xs.length : ℚ))) := by
  have h2 := (parse_tag_distribution_single_colon_normalizes xs
    (fun x hx => Or.inl (h x hx))).1
  rw [h2]
  have hw : ∀ x ∈ xs, rawWeight x = 1 := by
    intro x hx
    simp [rawWeight, h x hx]
  have hsum : (xs.map rawWeight).sum = (xs.length : ℚ) := by
    rw [List.map_congr_left hw, sum_map_const_q]
    ring
  have hnames : xs.map (fun x => (pySplit x ':').headD x) = xs := by
    conv_rhs => rw [← List.map_id xs]
    exact List.map_congr_left (fun x hx => by simp [h x hx])
  have hws : xs.map (fun x => rawWeight x / (xs.map rawWeight).sum)
      = xs.map (fun _ => 1 / (xs.length : ℚ)) :=
    List.map_congr_left (fun x hx => by rw [hw x hx, hsum])
  rw [hnames, hws]

/-- An absent key never satisfies the key test. -/
theorem dictGet_any_false (kvs : List (String × Config)) (k : String)
    (h : dictGet kvs k = none) : kvs.any (fun kv => kv.1 = k) = false := by
  induction kvs with
  | nil => rfl
  | cons kv rest ih =>
    obtain ⟨k1, v1⟩ := kv
    rw [dictGet] at h
    by_cases hk : k1 = k
    · rw [if_pos hk] at h
      exact absurd h (by simp)
    · rw [if_neg hk] at h
      simp [hk, ih h]

/-- `rng.choice` over a non-empty pool with the uniform distribution:
every validity check passes, and the draw succeeds exactly when the
requested size does not exceed the pool. -/
theorem numpyChoice_uniform (g : Gen) (seed pos : Nat) (xs : List String) (n : Nat)
    (h0 : xs ≠ []) :
    numpyChoice g seed pos xs n (xs.map fun _ => 1 / (xs.length : ℚ))
      = if xs.length < n then
          .error "ValueError: Cannot take a larger sample than population when replace is False"
        else .ok (drawDistinct g seed pos n xs) := by
  have hne : ((xs.length : ℚ)) ≠ 0 := by
    simp [List.length_eq_zero, h0]
  have hany : (xs.map fun _ => 1 / (xs.length : ℚ)).any (fun w => w < 0) = false := by
    rw [List.any_eq_false]
    intro w hw
    simp only [List.mem_map] at hw
    obtain ⟨x, hx, rfl⟩ := hw
    simp only [decide_eq_true_eq, not_lt]
    positivity
  have hsum : (xs.map fun _ => 1 / (xs.length : ℚ)).sum = 1 := by
    rw [sum_map_const_q, mul_one_div, div_self hne]
  unfold numpyChoice
  rw [if_neg (by simp), hany, hsum]
  norm_num

/-- The collapse pass never turns a non-empty string empty. -/
theorem collapseCommas_ne_nil (l : List Char) (h : l ≠ []) :
    collapseCommas l ≠ [] := by
  induction l using collapseCommas.induct with
  | case1 rest ih =>
    rw [collapseCommas.eq_1]
    simp
  | case2 x rest hside ih =>
    rw [collapseCommas.eq_2 x rest hside]
    simp
  | case3 => simp at h

/-- A non-empty char list makes a non-empty string. -/
theorem asString_ne_empty (l : List Char) (h : l ≠ []) : l.asString ≠ "" := by
  intro hc
  have hdata := congrArg String.data hc
  simp only [asString_data] at hdata
  simp [hdata] at h

/-- Stringifying one non-empty tag is non-empty. -/
theorem stringify_singleton_ne_empty (x : String) (hx : x ≠ "") :
    stringify_tags [x] ≠ "" := by
  unfold stringify_tags
  have hxl : x.toList ≠ [] := by
    intro hn
    apply hx
    cases x with
    | mk data =>
      simp only [String.toList] at hn
      subst hn
      rfl
  have hj : joinCommaSpace [x] = x.toList := rfl
  rw [hj]
  exact asString_ne_empty _ (collapseCommas_ne_nil _ hxl)

/-! ### C4: scalar repeat counts larger than the pool -/

/-- C4 (amended): a scalar repeat count `N` larger than the pool size is
*not* clamped — the clamp at line 105 only runs when `repeat` is a
range — so `rng.choice(..., size=N, replace=False)` fails with a
`ValueError` instead of returning a clamped result. -/
theorem select_tags_scalar_overdraw_errors (g : Gen) (ss : Nat)
    (xs : List String) (N : Nat)
    (h1 : ∀ x ∈ xs, pySplit x ':' = [x]) (h2 : xs ≠ []) (h3 : xs.length < N) :
    select_tags g ss (.list (xs.map .str)) (.num 1) (.num N) none
      = .error "ValueError: Cannot take a larger sample than population when replace is False" := by
  rw [select_tags_list]
  have hsize : asSize (.num (N : ℚ)) = .ok N := by
    simp [asSize, Rat.den_natCast, Rat.num_natCast]
  simp only [sampleFrom, iterTags_strs xs, parse_colonFree xs h1, hsize,
    numpyChoice_uniform g _ _ xs N h2, if_pos h3]

/-- Witness for C4's amended theorem: pool of two, repeat 3. -/
theorem select_tags_scalar_overdraw_errors_witness :
    select_tags genZero 1 (.list (["a", "b"].map .str)) (.num 1) (.num (3 : ℕ)) none
      = .error "ValueError: Cannot take a larger sample than population when replace is False" :=
  select_tags_scalar_overdraw_errors genZero 1 ["a", "b"] 3 (by decide) (by decide) (by decide)

/-- C4 (counterexample): a Choice node with a two-tag pool and scalar
`repeat=3` fails with numpy's over-sampling `ValueError` — `select_tags`
does not clamp the scalar count to the pool size and returns no
result. -/
theorem select_tags_scalar_overdraw_fails_at_three :
    select_tags genZero 1 (.dict [("tags", .list [.str "a", .str "b"]), ("repeat", .num 3)])
      (.num 1) (.num 1) none
      = .error "ValueError: Cannot take a larger sample than population when replace is False" := by
  rw [select_tags_dict_nolist _ _ _ _ _ _ (by rfl)]
  norm_num +decide [selectRest, configContains, dictGet, asNum, asSize, sampleFrom, iterTags,
    iterTags.iterStrs, parse_tag_distribution, parseEntries, pySplit, splitOnChar, numpyChoice,
    genZero, drawDistinct, stringify_tags, joinCommaSpace, collapseCommas, effSeed]

/-! ### C6: configuration shapes the resolver rejects or accepts -/

/-- C6 (amended): a number is rejected (iterating it raises a
`TypeError` that surfaces to the caller), but a dict carrying neither
`tags` nor `list` is *not* rejected: `parse_tag_distribution` iterates
its keys, so the node's key names themselves become the sampling pool. -/
theorem select_tags_shape_handling :
    (∀ (g : Gen) (ss : Nat) (sa : Option Nat) (q : ℚ) (p n : Config),
        select_tags g ss (.num q) p n sa = .error "TypeError: number is not iterable")
    ∧ (∀ (g : Gen) (ss : Nat) (sa : Option Nat) (kvs : List (String × Config)),
        dictGet kvs "probability" = none → dictGet kvs "repeat" = none →
        dictGet kvs "list" = none → dictGet kvs "tags" = none → kvs ≠ [] →
        (∀ kv ∈ kvs, pySplit kv.1 ':' = [kv.1]) →
        select_tags g ss (.dict kvs) (.num 1) (.num 1) sa
          = .ok (stringify_tags (drawDistinct g (effSeed ss sa) 1 1
              (kvs.map (fun kv => kv.1))))) := by
  constructor
  · intro g ss sa q p n
    rw [select_tags_num]
    rfl
  · intro g ss sa kvs hp hr hl ht hne hcf
    rw [select_tags_dict_nolist g ss kvs _ _ sa hl, hp, hr]
    have hmem : kvs.any (fun kv => kv.1 = "tags") = false := dictGet_any_false kvs "tags" ht
    have hgate : ¬ (g.rand (effSeed ss sa) 0 > (1 : ℚ)) := by
      have := g.rand_lt_one (effSeed ss sa) 0
      linarith
    have hkeys : ∀ x ∈ kvs.map (fun kv => kv.1), pySplit x ':' = [x] := by
      intro x hx
      simp only [List.mem_map] at hx
      obtain ⟨kv, hkv, rfl⟩ := hx
      exact hcf kv hkv
    have hkne : kvs.map (fun kv => kv.1) ≠ [] := by
      simpa using hne
    have hsize1 : asSize (.num 1) = .ok 1 := by
      norm_num [asSize]
    have hnotlt : ¬ ((kvs.map (fun kv => kv.1)).length < 1) := by
      simp [List.length_eq_zero, hne]
    simp only [selectRest, configContains, hmem, Option.getD, asNum, if_neg hgate,
      Bool.false_eq_true, if_false]
    simp only [sampleFrom, iterTags, parse_colonFree _ hkeys, hsize1]
    rw [numpyChoice_uniform g _ _ _ 1 hkne, if_neg hnotlt]

/-- Witness for C6's amended theorem: a number errors; a plain one-key
dict resolves to a sample of its keys. -/
theorem select_tags_shape_handling_witness :
    select_tags genZero 1 (.num 5) (.num 1) (.num 1) none
      = .error "TypeError: number is not iterable"
    ∧ select_tags genZero 1 (.dict [("color", .num 7)]) (.num 1) (.num 1) none
      = .ok (stringify_tags (drawDistinct genZero 1 1 1
          ([("color", Config.num 7)].map (fun kv => kv.1)))) :=
  ⟨(select_tags_shape_handling).1 genZero 1 none 5 (.num 1) (.num 1),
   (select_tags_shape_handling).2 genZero 1 none [("color", .num 7)]
     rfl rfl rfl rfl (by simp) (by decide)⟩

/-- C6 (counterexample): the dict `{"probability": 1}` carries neither
`tags` nor `list`, yet `select_tags` does not signal a shape error — it
samples the dict's keys and returns `"probability"`. -/
theorem select_tags_plain_dict_samples_keys :
    select_tags genZero 1 (.dict [("probability", .num 1)]) (.num 1) (.num 1) none
      = .ok "probability" := by
  rw [select_tags_dict_nolist _ _ _ _ _ _ (by rfl)]
  norm_num +decide [selectRest, configContains, dictGet, asNum, asSize, sampleFrom, iterTags,
    parse_tag_distribution, parseEntries, pySplit, splitOnChar, numpyChoice, genZero,
    drawDistinct, stringify_tags, joinCommaSpace, collapseCommas, effSeed]

/-! ### C8: probability gating -/

/-- A Choice node with an explicit probability over a list of plain
tags. -/
def mkChoice (p : ℚ) (xs : List String) : Config :=
  .dict [("probability", .num p), ("tags", .list (xs.map .str))]

/-- C8 (amended): the gate is the strict comparison
`rng.random() > p`.  With `probability=0` the node resolves empty
*whenever the uniform draw is strictly positive* (a draw of exactly 0
slips through — see the counterexample); with `probability=1` the gate
never fires (draws are < 1) and one tag of a list of non-empty tags is
returned, so the result is a non-empty string. -/
theorem select_tags_probability_gating (g : Gen) (ss : Nat) (sa : Option Nat)
    (xs : List String)
    (h1 : ∀ x ∈ xs, pySplit x ':' = [x] ∧ x ≠ "") (h2 : xs ≠ []) :
    (0 < g.rand (effSeed ss sa) 0 →
      select_tags g ss (mkChoice 0 xs) (.num 1) (.num 1) sa = .ok "")
    ∧ (∃ s, select_tags g ss (mkChoice 1 xs) (.num 1) (.num 1) sa = .ok s ∧ s ≠ "") := by
  have hkeys : ∀ x ∈ xs, pySplit x ':' = [x] := fun x hx => (h1 x hx).1
  have hlen : ¬ (xs.length < 1) := by
    simp [List.length_eq_zero, h2]
  have hsize1 : asSize (.num 1) = .ok 1 := by
    norm_num [asSize]
  constructor
  · intro hr
    rw [show mkChoice 0 xs
        = .dict [("probability", .num 0), ("tags", .list (xs.map .str))] from rfl]
    rw [select_tags_dict_nolist _ _ _ _ _ _ (by rfl)]
    show (if g.rand (effSeed ss sa) 0 > (0 : ℚ) then (Except.ok "" : Except String String)
          else sampleFrom g (effSeed ss sa) (0 + 1) (.list (xs.map .str)) (.num 1)) = .ok ""
    rw [if_pos hr]
  · rw [show mkChoice 1 xs
        = .dict [("probability", .num 1), ("tags", .list (xs.map .str))] from rfl]
    rw [select_tags_dict_nolist _ _ _ _ _ _ (by rfl)]
    have hgate : ¬ (g.rand (effSeed ss sa) 0 > (1 : ℚ)) := by
      have := g.rand_lt_one (effSeed ss sa) 0
      linarith
    obtain ⟨x0, rest, rfl⟩ : ∃ x0 rest, xs = x0 :: rest := by
      cases xs with
      | nil => exact absurd rfl h2
      | cons a b => exact ⟨a, b, rfl⟩
    refine ⟨stringify_tags [(x0 :: rest).getD
        (g.pick (effSeed ss sa) 1 % (x0 :: rest).length) ""], ?_, ?_⟩
    · show (if g.rand (effSeed ss sa) 0 > (1 : ℚ) then (Except.ok "" : Except String String)
            else sampleFrom g (effSeed ss sa) (0 + 1)
              (.list ((x0 :: rest).map .str)) (.num 1)) = _
      rw [if_neg hgate]
      simp only [sampleFrom, iterTags_strs, parse_colonFree _ hkeys, hsize1]
      rw [numpyChoice_uniform g (effSeed ss sa) (0 + 1) (x0 :: rest) 1 (by simp),
        if_neg hlen]
      rfl
    · have hi : g.pick (effSeed ss sa) 1 % (x0 :: rest).length < (x0 :: rest).length :=
        Nat.mod_lt _ (by simp)
      have hmem : (x0 :: rest).getD (g.pick (effSeed ss sa) 1 % (x0 :: rest).length) ""
          ∈ x0 :: rest := by
        rw [List.getD_eq_getElem _ _ hi]
        exact List.getElem_mem hi
      exact stringify_singleton_ne_empty _ (h1 _ hmem).2

/-- Witness for C8's amended theorem with a generator drawing 1/2. -/
theorem select_tags_probability_gating_witness :
    select_tags genOne 1 (mkChoice 0 ["a"]) (.num 1) (.num 1) none = .ok ""
    ∧ (∃ s, select_tags genOne 1 (mkChoice 1 ["a"]) (.num 1) (.num 1) none
        = .ok s ∧ s ≠ "") := by
  have h := select_tags_probability_gating genOne 1 none ["a"] (by decide) (by decide)
  exact ⟨h.1 (by norm_num [genOne, effSeed]), h.2⟩

/-- C8 (counterexample): a generator whose uniform draw is exactly 0 is
a valid draw (`rng.random()` ranges over `[0,1)`), and with it a Choice
node with `probability=0` does *not* resolve empty: the strict gate
`0 > 0` fails and the tag `"a"` is returned. -/
theorem select_tags_probability_zero_nonempty :
    select_tags genZero 1 (mkChoice 0 ["a"]) (.num 1) (.num 1) none = .ok "a"
    ∧ ("a" : String) ≠ "" := by
  refine ⟨?_, by decide⟩
  rw [show mkChoice 0 ["a"]
      = .dict [("probability", .num 0), ("tags", .list [.str "a"])] from rfl]
  rw [select_tags_dict_nolist _ _ _ _ _ _ (by rfl)]
  norm_num +decide [selectRest, configContains, dictGet, asNum, asSize, sampleFrom, iterTags,
    iterTags.iterStrs, parse_tag_distribution, parseEntries, pySplit, splitOnChar, numpyChoice,
    genZero, drawDistinct, stringify_tags, joinCommaSpace, collapseCommas, effSeed]

/-! ### C5: ranged repeat counts -/

/-- The spec's concrete scenario: tag list `["x", "y", "z"]` with
`repeat=[1, 5]`. -/
def cfg5 : Config :=
  .dict [("tags", .list [.str "x", .str "y", .str "z"]),
         ("repeat", .list [.num 1, .num 5])]

/-- A natural-number size passes numpy's size validation. -/
theorem asSize_natCast (n : ℕ) : asSize (.num (n : ℚ)) = .ok n := by
  simp [asSize, Rat.den_natCast, Rat.num_natCast]

/-- For the `repeat=[1,5]` scenario over a pool of three, the drawn
count is `1 + rng.integers`-draw `% 2`, so every resolution returns one
or two tags: `rng.integers(1, min(5, 3))` is half-open. -/
theorem cfg5_count (g : Gen) (ss : Nat) (sa : Option Nat) :
    ∃ s, select_tags g ss cfg5 (.num 1) (.num 1) sa = .ok s
      ∧ ((splitTags s).length = 1 ∨ (splitTags s).length = 2) := by
  rw [show cfg5 = .dict [("tags", .list [.str "x", .str "y", .str "z"]),
      ("repeat", .list [.num 1, .num 5])] from rfl]
  rw [select_tags_dict_nolist _ _ _ _ _ _ (by rfl)]
  have hgate : ¬ (g.rand (effSeed ss sa) 1 > (1 : ℚ)) := by
    have := g.rand_lt_one (effSeed ss sa) 1
    linarith
  show (∃ s, (if g.rand (effSeed ss sa) 1 > (1 : ℚ) then (Except.ok "" : Except String String)
        else sampleFrom g (effSeed ss sa) (1 + 1) (.list [.str "x", .str "y", .str "z"])
          (.num ((1 + (g.intDraw (effSeed ss sa) 0 : Int) % (3 - 1) : Int) : ℚ))) = .ok s
      ∧ ((splitTags s).length = 1 ∨ (splitTags s).length = 2))
  rw [if_neg hgate]
  have hcast : ((1 + (g.intDraw (effSeed ss sa) 0 : Int) % (3 - 1) : Int) : ℚ)
      = (((1 + g.intDraw (effSeed ss sa) 0 % 2 : ℕ) : ℚ)) := by
    push_cast
    norm_cast
  rw [hcast]
  have hpool : (["x", "y", "z"].map Config.str) = [.str "x", .str "y", .str "z"] := rfl
  rw [show (Config.list [.str "x", .str "y", .str "z"])
      = Config.list (["x", "y", "z"].map Config.str) from rfl]
  simp only [sampleFrom, iterTags_strs, parse_colonFree ["x", "y", "z"] (by decide),
    asSize_natCast]
  rw [numpyChoice_uniform g (effSeed ss sa) (1 + 1) ["x", "y", "z"]
    (1 + g.intDraw (effSeed ss sa) 0 % 2) (by decide)]
  have hd2 : g.intDraw (effSeed ss sa) 0 % 2 < 2 := Nat.mod_lt _ (by norm_num)
  rw [if_neg (by simp; omega)]
  generalize hgen0 : g.intDraw (effSeed ss sa) 0 % 2 = d2 at *
  interval_cases d2
  · -- size 1
    simp only [drawDistinct, List.length_cons, List.length_nil]
    norm_num
    generalize hgen1 : g.pick (effSeed ss sa) (1 + 1) % 3 = k
    have hk : k < 3 := by
      rw [← hgen1]
      exact Nat.mod_lt _ (by norm_num)
    interval_cases k <;> exact Or.inl (by decide)
  · simp only [drawDistinct, List.length_cons, List.length_nil]
    norm_num
    generalize hgen1 : g.pick (effSeed ss sa) (1 + 1) % 3 = k
    have hk : k < 3 := by
      rw [← hgen1]
      exact Nat.mod_lt _ (by norm_num)
    interval_cases k <;>
    · simp only [List.eraseIdx, drawDistinct, List.length_cons, List.length_nil]
      norm_num
      generalize hgen2 : g.pick (effSeed ss sa) (1 + 1 + 1) % 2 = j
      have hj : j < 2 := by
        rw [← hgen2]
        exact Nat.mod_lt _ (by norm_num)
      interval_cases j <;> exact Or.inr (by decide)



/-- C5 (counterexample, stated as the negation of the claim): for the
list `["x", "y", "z"]` with `repeat=[1, 5]`, no generator behavior and
no seed can return 3 tags — `rng.integers(int(min_n), int(max_n))`
draws from the half-open interval `[1, 3)`, so the pool size itself is
unattainable, contradicting the claim that the count ranges up to and
including 3. -/
theorem select_tags_range_repeat_three_unattainable :
    ¬ ∃ (g : Gen) (ss : Nat) (sa : Option Nat) (s : String),
        select_tags g ss cfg5 (.num 1) (.num 1) sa = .ok s
          ∧ (splitTags s).length = 3 := by
  rintro ⟨g, ss, sa, s, hok, hlen⟩
  obtain ⟨t, ht, hcount⟩ := cfg5_count g ss sa
  rw [ht] at hok
  injection hok with hts
  subst hts
  rcases hcount with h1 | h2 <;> omega

/-- C5 (amended): with `repeat=[lo, hi]` the upper bound is clamped to
the pool size but the draw is half-open, so for `["x", "y", "z"]` with
`repeat=[1, 5]` the number of distinct tags returned always lies
between 1 and 2 inclusive, and both 1 and 2 are attainable (exhibited
at seed 7 by two valid generator behaviors). -/
theorem select_tags_range_repeat_clamped :
    (∀ (g : Gen) (ss : Nat) (sa : Option Nat),
        ∃ s, select_tags g ss cfg5 (.num 1) (.num 1) sa = .ok s
          ∧ ((splitTags s).length = 1 ∨ (splitTags s).length = 2))
    ∧ (∃ s, select_tags genZero 7 cfg5 (.num 1) (.num 1) none = .ok s
        ∧ (splitTags s).length = 1)
    ∧ (∃ s, select_tags genOne 7 cfg5 (.num 1) (.num 1) none = .ok s
        ∧ (splitTags s).length = 2) := by
  refine ⟨cfg5_count, ⟨"x", ?_, by decide⟩, ⟨"x, y", ?_, by decide⟩⟩
  · rw [show cfg5 = .dict [("tags", .list [.str "x", .str "y", .str "z"]),
        ("repeat", .list [.num 1, .num 5])] from rfl]
    rw [select_tags_dict_nolist _ _ _ _ _ _ (by rfl)]
    norm_num +decide [selectRest, configContains, dictGet, asNum, asInt, asSize, clen,
      ratTrunc, numpyIntegers, sampleFrom, iterTags, iterTags.iterStrs,
      parse_tag_distribution, parseEntries, pySplit, splitOnChar, numpyChoice, genZero,
      drawDistinct, stringify_tags, joinCommaSpace, collapseCommas, effSeed]
  · rw [show cfg5 = .dict [("tags", .list [.str "x", .str "y", .str "z"]),
        ("repeat", .list [.num 1, .num 5])] from rfl]
    rw [select_tags_dict_nolist _ _ _ _ _ _ (by rfl)]
    norm_num +decide [selectRest, configContains, dictGet, asNum, asInt, asSize, clen,
      ratTrunc, numpyIntegers, sampleFrom, iterTags, iterTags.iterStrs,
      parse_tag_distribution, parseEntries, pySplit, splitOnChar, numpyChoice, genOne,
      drawDistinct, stringify_tags, joinCommaSpace, collapseCommas, effSeed]

end SceneComposer
